import Mathlib

/-!
Verification of the chain-deployment pipeline of the
malicious-validator-playbook repository.

The embedding covers:
- `deployChain` in `src/modules/chain/deployChain.ts` (the version using
  individually named key/address variables), here `deployChainNamed`;
- `deployChain` in the role-mapped variant of the same file (NodeAccount
  list), here `deployChainRoles`;
- `generateNodeConfiguration` in `prepareNodeConfig.ts`.

External collaborators (viem, the @arbitrum/chain-sdk) are modelled as
fields of an explicit `World` record; the SDK's calldata/receipt
encoders and decoders, which are not part of this repository, are
modelled from the spec (see the doc comments of the corresponding
definitions). Monetary amounts are in wei (Nat).
-/

namespace Playbook

/-- `parseEther('0.00001')` from `deployChain.ts` line 12, in wei. -/
def BASE_STAKE : Nat := 10000000000000

/-- `parseEther('0.001')` from `deployChain.ts` line 13, in wei. -/
def TEST_TOKENS_AMOUNT : Nat := 1000000000000000

/-- `deployChain.ts` line 14:
`BASE_STAKE + TEST_TOKENS_AMOUNT * 4n`
(comment in source: gas needs for 2 validators + 1 batch poster + 1 deployer). -/
def TOKEN_NEEDS_FOR_DEPLOY : Nat := BASE_STAKE + TEST_TOKENS_AMOUNT * 4

/-- The chain-configuration document embedded in the rollup-creation
transaction. `deployChain.ts` builds it via `prepareChainConfig` from
`{chainId, arbitrum: {InitialChainOwner, DataAvailabilityCommittee: true}}`. -/
structure ChainConfig where
  chainId : Nat
  initialChainOwner : Nat
  dataAvailabilityCommittee : Bool
deriving DecidableEq, Repr

/-- Modelled from the spec: the SDK collaborator
`prepareChainConfig(params) → chainConfig document` materialises the chain
configuration from the parameters the repository passes
(`deployChain.ts` lines 50-56: chainId, InitialChainOwner = deployer,
DataAvailabilityCommittee = true). -/
def prepareChainConfig (chainId owner : Nat) : ChainConfig :=
  { chainId := chainId, initialChainOwner := owner, dataAvailabilityCommittee := true }

/-- Modelled from the spec: the SDK serialises the chain-configuration
document to a byte string (JSON.stringify) before embedding it in the
deployment parameters. The concrete byte layout is not in this
repository; we use a three-cell injective encoding. -/
def serializeChainConfig (c : ChainConfig) : List Nat :=
  [c.chainId, c.initialChainOwner, cond c.dataAvailabilityCommittee 1 0]

/-- Modelled from the spec: `JSON.parse` of the embedded chain-config
string (`prepareNodeConfig.ts` line 35); fails with a decoding error on
any byte string not produced by `serializeChainConfig`. -/
def deserializeChainConfig : List Nat → Except String ChainConfig
  | [a, b, 0] => .ok { chainId := a, initialChainOwner := b, dataAvailabilityCommittee := false }
  | [a, b, 1] => .ok { chainId := a, initialChainOwner := b, dataAvailabilityCommittee := true }
  | _ => .error "chainConfig string does not parse"

/-- The deployment-parameters config produced by the SDK collaborator
`createRollupPrepareDeploymentParamsConfig` (`deployChain.ts` lines 46-57):
it carries the chainId, owner, baseStake, the serialised chain config and
the stake token. -/
structure DeploymentParamsConfig where
  chainId : Nat
  owner : Nat
  baseStake : Nat
  chainConfigStr : List Nat
  stakeToken : Nat
deriving DecidableEq, Repr

/-- The stake token the SDK fills in by default (an address; opaque here). -/
def DEFAULT_STAKE_TOKEN : Nat := 0

/-- Modelled from the spec: the SDK collaborator
`prepareDeploymentParams(client, params) → factory params`; the repository
calls it with chainId, owner = deployer address, baseStake = BASE_STAKE and
the chain config from `prepareChainConfig` (`deployChain.ts` lines 46-57). -/
def createRollupPrepareDeploymentParamsConfig (chainId owner : Nat) : DeploymentParamsConfig :=
  { chainId := chainId
    owner := owner
    baseStake := BASE_STAKE
    chainConfigStr := serializeChainConfig (prepareChainConfig chainId owner)
    stakeToken := DEFAULT_STAKE_TOKEN }

/-- The argument record of `createRollup` (`deployChain.ts` lines 60-68):
config plus the batch-poster and validator address lists. -/
structure CreateRollupParams where
  config : DeploymentParamsConfig
  batchPosters : List Nat
  validators : List Nat
deriving DecidableEq, Repr

/-- The 4-byte function selector of the rollup factory's creation entry
point (opaque constant). -/
def CREATE_ROLLUP_SELECTOR : Nat := 3419834891

/-- Modelled from the spec: the calldata layout of the rollup-creation
transaction as encoded by the SDK's `createRollup`; the part the
repository later decodes (`tx.getInputs()[0].config`) is the
deployment-parameters config, with the serialised chain config as the
tail. -/
def encodeConfigCalldata (c : DeploymentParamsConfig) : List Nat :=
  CREATE_ROLLUP_SELECTOR :: c.chainId :: c.owner :: c.baseStake :: c.stakeToken :: c.chainConfigStr

/-- Modelled from the spec: the SDK's calldata decoder used by
`createRollupPrepareTransaction(...).getInputs()`
(`prepareNodeConfig.ts` lines 24-33); fails when the calldata does not
match the factory's known input layout. -/
def decodeInputsConfig : List Nat → Except String DeploymentParamsConfig
  | sel :: cid :: own :: stk :: tok :: rest =>
    if sel = CREATE_ROLLUP_SELECTOR then
      .ok { chainId := cid, owner := own, baseStake := stk, chainConfigStr := rest, stakeToken := tok }
    else .error "calldata does not match the createRollup layout"
  | _ => .error "calldata does not match the createRollup layout"

/-- A base-chain transaction as re-fetched by `getTransaction`; only its
calldata is consumed by the repository. -/
structure RollupTx where
  calldata : List Nat
deriving DecidableEq, Repr

/-- The transaction that `createRollup` submits for a given parameter
record. -/
def mkRollupTx (p : CreateRollupParams) : RollupTx :=
  { calldata := encodeConfigCalldata p.config }

/-- One emitted event log of the rollup-creation receipt: an event topic
and the address it carries. -/
structure LogEv where
  topic : Nat
  addr : Nat
deriving DecidableEq, Repr

/-- A transaction receipt as re-fetched by `getTransactionReceipt`; only
its logs are consumed by the repository. -/
structure Receipt where
  logs : List LogEv
deriving DecidableEq, Repr

/-- The mapping of core-contract roles to deployed addresses recovered
from the receipt. -/
structure CoreContracts where
  rollup : Nat
  inbox : Nat
  sequencerInbox : Nat
  bridge : Nat
deriving DecidableEq, Repr

def ROLLUP_TOPIC : Nat := 1
def INBOX_TOPIC : Nat := 2
def SEQUENCER_INBOX_TOPIC : Nat := 3
def BRIDGE_TOPIC : Nat := 4

/-- The list of event topics identifying the core-contract-deployed
events. -/
def coreTopics : List Nat := [ROLLUP_TOPIC, INBOX_TOPIC, SEQUENCER_INBOX_TOPIC, BRIDGE_TOPIC]

/-- Modelled from the spec: the SDK's
`createRollupPrepareTransactionReceipt(...).getCoreContracts()`
(`prepareNodeConfig.ts` line 37) decodes the receipt's emitted event logs
to recover the addresses of the core contracts instantiated by the
factory, one labelled event per core contract; it fails when a required
event is missing. -/
def getCoreContracts (logs : List LogEv) : Except String CoreContracts :=
  match logs.find? (fun e => e.topic = ROLLUP_TOPIC),
        logs.find? (fun e => e.topic = INBOX_TOPIC),
        logs.find? (fun e => e.topic = SEQUENCER_INBOX_TOPIC),
        logs.find? (fun e => e.topic = BRIDGE_TOPIC) with
  | some r, some i, some s, some b =>
    .ok { rollup := r.addr, inbox := i.addr, sequencerInbox := s.addr, bridge := b.addr }
  | _, _, _, _ => .error "receipt logs do not match the rollup-creation shape"

/-- `NodeRole` from the role-mapped variant of `deployChain.ts`
(enum NodeRole: Validator, BatchPoster). -/
inductive NodeRole where
  | validator
  | batchPoster
deriving DecidableEq, Repr

/-- `NodeAccount` from the role-mapped variant of `deployChain.ts`:
{role, privateKey, address}. -/
structure NodeAccount where
  role : NodeRole
  privateKey : Nat
  address : Nat
deriving DecidableEq, Repr

/-- The fixed role list of the role-mapped variant: 2 validators and 1
batch poster. -/
def roles : List NodeRole := [NodeRole.validator, NodeRole.validator, NodeRole.batchPoster]

/-- The answers the interactive prompt resolves to (`deployChain.ts`
lines 93-106): the chosen chainId and the confirmation flag. -/
structure PromptAnswers where
  chainId : Nat
  confirm : Bool
deriving DecidableEq, Repr

/-- The environment of one `deployChain` run: the external collaborators
(base-chain client, keygen, rollup factory, prompt) and ambient state
(`runtimeAccount`, `process.env`). `genKey i` is the result of the
`i`-th `generatePrivateKey()` call; `addrOf k` is
`privateKeyToAccount(sanitizePrivateKey(k)).address`; `transferOk k`
says whether the `k`-th `sendTransaction` of the funding step succeeds. -/
structure World where
  balance : Nat
  deployerAddr : Nat
  answers : PromptAnswers
  genKey : Nat → Nat
  addrOf : Nat → Nat
  transferOk : Nat → Bool
  rollupOk : Bool
  rollupTxHash : Nat
  getTransaction : Nat → Option RollupTx
  getTransactionReceipt : Nat → Option Receipt
  envBatchPosterKey : Nat
  envValidatorKey : Nat
  parentChainId : Nat
  parentChainRpcUrl : String

/-- The account-provisioning step of the role-mapped variant
(case 0 of the loop): `roles.map` over fresh `generatePrivateKey()`
calls, deriving each address from its own key. -/
def provisionAccounts (gen addrOf : Nat → Nat) : List NodeAccount :=
  roles.enum.map (fun p =>
    { role := p.2, privateKey := gen p.1, address := addrOf (gen p.1) })

/-- The final node-configuration artifact: the parameter record the
repository hands to the SDK collaborator `prepareNodeConfig`
(`prepareNodeConfig.ts` lines 40-49); modelled from the spec as the
persisted schema packaging exactly these parameters. -/
structure NodeConfig where
  chainName : String
  chainConfig : ChainConfig
  coreContracts : CoreContracts
  batchPosterPrivateKey : Nat
  validatorPrivateKey : Nat
  stakeToken : Nat
  parentChainId : Nat
  parentChainRpcUrl : String
deriving DecidableEq, Repr

/-- `GenerateNodeConfigurationResult` from `types/index.ts`:
{nodeConfig, chainConfig}. -/
structure GenResult where
  nodeConfig : NodeConfig
  chainConfig : ChainConfig
deriving DecidableEq, Repr

/-- The `nodeConfigParameters` record built in `prepareNodeConfig.ts`
lines 40-49: decoded chain config, decoded core contracts, the batch
poster and validator private keys read from `process.env` (lines 44-45,
modelled by the `World`'s env fields), the stake token from the decoded
calldata, and the parent-chain id and RPC endpoint. -/
def mkNodeConfigParameters (w : World) (txConfig : DeploymentParamsConfig)
    (chainConfig : ChainConfig) (coreContracts : CoreContracts) : NodeConfig :=
  { chainName := "My Orbit Chain"
    chainConfig := chainConfig
    coreContracts := coreContracts
    batchPosterPrivateKey := w.envBatchPosterKey
    validatorPrivateKey := w.envValidatorKey
    stakeToken := txConfig.stakeToken
    parentChainId := w.parentChainId
    parentChainRpcUrl := w.parentChainRpcUrl }

/-- Modelled from the spec: the external node-config-preparation
collaborator `prepareNodeConfig(params) → persisted schema`; the core
treats the artifact's full schema as owned by this collaborator, so it
is modelled as packaging the parameters unchanged. -/
def prepareNodeConfig (params : NodeConfig) : NodeConfig := params

/-- `generateNodeConfiguration` from `prepareNodeConfig.ts`: re-fetch the
transaction and its receipt, decode the calldata's deployment-params
config and parse its embedded chain config, decode the receipt's
core-contract events, and assemble the node configuration. -/
def generateNodeConfiguration (w : World) (txHash : Nat) : Except String GenResult :=
  match w.getTransaction txHash with
  | none => .error "transaction not found"
  | some tx =>
    match w.getTransactionReceipt txHash with
    | none => .error "transaction receipt not found"
    | some rcpt =>
      match decodeInputsConfig tx.calldata with
      | .error e => .error e
      | .ok txConfig =>
        match deserializeChainConfig txConfig.chainConfigStr with
        | .error e => .error e
        | .ok chainConfig =>
          match getCoreContracts rcpt.logs with
          | .error e => .error e
          | .ok coreContracts =>
            let nodeConfigParameters := mkNodeConfigParameters w txConfig chainConfig coreContracts
            .ok { nodeConfig := prepareNodeConfig nodeConfigParameters
                  chainConfig := chainConfig }

/-- An observable side effect of one run: a confirmed native-token
transfer, a submitted rollup-deployment transaction, or the written
node-configuration artifact. -/
inductive Effect where
  | transfer (toAddr amount : Nat)
  | submitDeployment (p : CreateRollupParams)
  | writeArtifact (nc : NodeConfig)
deriving DecidableEq, Repr

/-- The funding step: one awaited `sendTestTokens` per address, strictly
sequentially; a failing transfer aborts the remaining ones. Returns the
confirmed-transfer trace and whether all transfers succeeded. `k` is the
index of the next transfer. -/
def runTransfers (ok : Nat → Bool) (k : Nat) : List Nat → List Effect × Bool
  | [] => ([], true)
  | a :: rest =>
    if ok k then
      let r := runTransfers ok (k + 1) rest
      (Effect.transfer a TEST_TOKENS_AMOUNT :: r.1, r.2)
    else ([], false)

/-- `deployRollupContracts` from `deployChain.ts` lines 39-73: build the
deployment parameters and submit the single rollup-creation transaction
through `createRollup`; a failure is rethrown. Returns the submission
effect and the transaction hash or the error. -/
def deployRollupContracts (w : World) (validatorAddresses : List Nat)
    (batchPosterAddress : Nat) (chainId : Nat) : List Effect × Except String Nat :=
  let createRollupConfig := createRollupPrepareDeploymentParamsConfig chainId w.deployerAddr
  let params : CreateRollupParams :=
    { config := createRollupConfig
      batchPosters := [batchPosterAddress]
      validators := validatorAddresses }
  if w.rollupOk then ([Effect.submitDeployment params], .ok w.rollupTxHash)
  else ([], .error "Rollup creation failed")

/-- The outcome of `deployChain`: `ok none` models returning `null`
(insufficient balance or cancelled), `ok (some cfg)` a successful return
of the chain config, `error` a thrown exception. -/
abbrev DeployOutcome := Except String (Option ChainConfig)

/-- `deployChain` from `src/modules/chain/deployChain.ts` (the variant
with individually named key/address variables): balance guard, prompt,
then the four-step loop (generate keys, fund the three accounts, deploy
the rollup contracts, generate and write the node configuration). -/
def deployChainNamed (w : World) : List Effect × DeployOutcome :=
  if w.balance < TOKEN_NEEDS_FOR_DEPLOY then ([], .ok none)
  else if !w.answers.confirm then ([], .ok none)
  else
    let chainId := w.answers.chainId
    -- case 0: generate the validator keys and the batch poster key
    let validatorKeys1 := w.genKey 0
    let validatorKeys2 := w.genKey 1
    let batchPosterKeys := w.genKey 2
    let validator1Address := w.addrOf validatorKeys1
    let validator2Address := w.addrOf validatorKeys2
    let batchPosterAddress := w.addrOf batchPosterKeys
    -- case 1: send test tokens to the three accounts, awaited in order
    let funding := runTransfers w.transferOk 0
      [validator1Address, validator2Address, batchPosterAddress]
    if !funding.2 then (funding.1, .error "transfer failed")
    else
      -- case 2: deploy the rollup contracts
      let deployed := deployRollupContracts w [validator1Address, validator2Address]
        batchPosterAddress chainId
      match deployed.2 with
      | .error e => (funding.1 ++ deployed.1, .error e)
      | .ok deployRollupHash =>
        -- case 3: generate the node configuration file and write it
        match generateNodeConfiguration w deployRollupHash with
        | .error e => (funding.1 ++ deployed.1, .error e)
        | .ok nodeConfigResult =>
          (funding.1 ++ deployed.1 ++ [Effect.writeArtifact nodeConfigResult.nodeConfig],
           .ok (some nodeConfigResult.chainConfig))

/-- `deployChain` from the role-mapped variant of `deployChain.ts`: same
guards and loop, but case 0 provisions a `NodeAccount` list over the
fixed role list, case 1 funds the accounts in list order, and case 2
recovers the validator addresses by filtering on role and the batch
poster by `find` (the source's non-null assertion on `find` is modelled
with a default that is never reached for the fixed role list). -/
def deployChainRoles (w : World) : List Effect × DeployOutcome :=
  if w.balance < TOKEN_NEEDS_FOR_DEPLOY then ([], .ok none)
  else if !w.answers.confirm then ([], .ok none)
  else
    let chainId := w.answers.chainId
    -- case 0: provision one NodeAccount per role
    let nodeAccounts := provisionAccounts w.genKey w.addrOf
    -- case 1: send test tokens to each account, awaited in order
    let funding := runTransfers w.transferOk 0 (nodeAccounts.map (fun a => a.address))
    if !funding.2 then (funding.1, .error "transfer failed")
    else
      -- case 2: deploy the rollup contracts
      let validatorAddresses :=
        (nodeAccounts.filter (fun a => a.role = NodeRole.validator)).map (fun a => a.address)
      let batchPosterAddress :=
        ((nodeAccounts.find? (fun a => a.role = NodeRole.batchPoster)).map
          (fun a => a.address)).getD 0
      let deployed := deployRollupContracts w validatorAddresses batchPosterAddress chainId
      match deployed.2 with
      | .error e => (funding.1 ++ deployed.1, .error e)
      | .ok deployRollupHash =>
        -- case 3: generate the node configuration file and write it
        match generateNodeConfiguration w deployRollupHash with
        | .error e => (funding.1 ++ deployed.1, .error e)
        | .ok nodeConfigResult =>
          (funding.1 ++ deployed.1 ++ [Effect.writeArtifact nodeConfigResult.nodeConfig],
           .ok (some nodeConfigResult.chainConfig))

instance instDecEqExcept {e a : Type} [DecidableEq e] [DecidableEq a] :
    DecidableEq (Except e a) := fun x y =>
  match x, y with
  | Except.ok u, Except.ok v => decidable_of_iff (u = v) (by simp)
  | Except.error u, Except.error v => decidable_of_iff (u = v) (by simp)
  | Except.ok _, Except.error _ => isFalse fun h => Except.noConfusion h
  | Except.error _, Except.ok _ => isFalse fun h => Except.noConfusion h

/-- Recognise a confirmed-transfer effect. -/
def Effect.isTransfer : Effect → Bool
  | Effect.transfer _ _ => true
  | _ => false

/-- Recognise a deployment-submission effect. -/
def Effect.isSubmit : Effect → Bool
  | Effect.submitDeployment _ => true
  | _ => false

/-- Recognise an artifact-write effect. -/
def Effect.isWrite : Effect → Bool
  | Effect.writeArtifact _ => true
  | _ => false

/-- Fixture: the end-to-end success scenario of the spec
(chainId 412346, deployer balance 0.005 ether = 5·10^15 wei, every
collaborator succeeding, base chain faithfully serving back the submitted
transaction and a receipt with one event per core contract). Key
generation yields 100, 101, 102; address derivation adds 1000. -/
def successWorld : World :=
  { balance := 5000000000000000
    deployerAddr := 900
    answers := { chainId := 412346, confirm := true }
    genKey := fun i => 100 + i
    addrOf := fun k => k + 1000
    transferOk := fun _ => true
    rollupOk := true
    rollupTxHash := 77
    getTransaction := fun h => if h = 77 then
      some (mkRollupTx
        { config := createRollupPrepareDeploymentParamsConfig 412346 900
          batchPosters := [1102]
          validators := [1100, 1101] }) else none
    getTransactionReceipt := fun h => if h = 77 then
      some { logs := [⟨ROLLUP_TOPIC, 11⟩, ⟨INBOX_TOPIC, 12⟩,
                      ⟨SEQUENCER_INBOX_TOPIC, 13⟩, ⟨BRIDGE_TOPIC, 14⟩] } else none
    envBatchPosterKey := 500
    envValidatorKey := 501
    parentChainId := 421614
    parentChainRpcUrl := "rpc" }

/-- Fixture: the same run with deployer balance 0. -/
def poorWorld : World :=
  { successWorld with balance := 0 }

/-- C1: if the deployer's balance is below `TOKEN_NEEDS_FOR_DEPLOY`, both
variants of `deployChain` return `null` at the balance check with an
empty effect trace: no transfer is issued, no deployment transaction is
submitted, and no node-configuration artifact is written. -/
theorem c1_balance_guard_aborts_without_mutation (w : World)
    (h : w.balance < TOKEN_NEEDS_FOR_DEPLOY) :
    deployChainNamed w = ([], Except.ok none) ∧
    deployChainRoles w = ([], Except.ok none) := by
  constructor
  · unfold deployChainNamed; rw [if_pos h]
  · unfold deployChainRoles; rw [if_pos h]

/-- Witness for C1 at the zero-balance fixture. -/
theorem c1_balance_guard_aborts_without_mutation_witness :
    poorWorld.balance < TOKEN_NEEDS_FOR_DEPLOY ∧
    deployChainNamed poorWorld = ([], Except.ok none) ∧
    deployChainRoles poorWorld = ([], Except.ok none) :=
  ⟨by decide, c1_balance_guard_aborts_without_mutation poorWorld (by decide)⟩

/-- Counterexample to C2: a successful run funds exactly 3 accounts, yet
the precomputed requirement `TOKEN_NEEDS_FOR_DEPLOY` is not
`BASE_STAKE + TEST_TOKENS_AMOUNT * 3`: the source multiplies the
per-account amount by 4. -/
theorem c2_requirement_counterexample :
    ((deployChainNamed successWorld).1.countP Effect.isTransfer = 3) ∧
    TOKEN_NEEDS_FOR_DEPLOY ≠ BASE_STAKE + TEST_TOKENS_AMOUNT * 3 := by
  decide

/-- C2 (amended): the precomputed requirement equals baseStake plus the
per-account funding amount times 4 — one unit for each of the 3 funded
accounts (2 validators, 1 batch poster) plus one extra unit for the
deployer itself — while exactly 3 accounts receive a transfer in a
successful run. -/
theorem c2_requirement_amended :
    TOKEN_NEEDS_FOR_DEPLOY = BASE_STAKE + TEST_TOKENS_AMOUNT * 4 ∧
    ((deployChainNamed successWorld).1.countP Effect.isTransfer = 3) := by
  decide

/-- C3: for the fixed role list (Validator, Validator, BatchPoster),
provisioning returns exactly 3 NodeAccounts, one per role in role-list
order, account i carrying the i-th freshly generated key and the address
derived from that same key; when key generation never repeats a key
within the run and address derivation is injective, the 3 addresses are
pairwise distinct. -/
theorem c3_account_provisioning (gen addrOf : Nat → Nat)
    (hkeys : ∀ i j, i < 3 → j < 3 → gen i = gen j → i = j)
    (haddr : ∀ k k', addrOf k = addrOf k' → k = k') :
    (provisionAccounts gen addrOf).length = 3 ∧
    provisionAccounts gen addrOf =
      [{ role := NodeRole.validator, privateKey := gen 0, address := addrOf (gen 0) },
       { role := NodeRole.validator, privateKey := gen 1, address := addrOf (gen 1) },
       { role := NodeRole.batchPoster, privateKey := gen 2, address := addrOf (gen 2) }] ∧
    addrOf (gen 0) ≠ addrOf (gen 1) ∧ addrOf (gen 0) ≠ addrOf (gen 2) ∧
    addrOf (gen 1) ≠ addrOf (gen 2) := by
  refine ⟨rfl, rfl, ?_, ?_, ?_⟩ <;>
    (intro h; have := hkeys _ _ (by omega) (by omega) (haddr _ _ h); omega)

/-- Witness for C3 with the keygen and address derivation of the success
fixture (keys 100, 101, 102; derived addresses 1100, 1101, 1102). -/
theorem c3_account_provisioning_witness :
    (∀ i j : Nat, i < 3 → j < 3 → 100 + i = 100 + j → i = j) ∧
    (∀ k k' : Nat, k + 1000 = k' + 1000 → k = k') ∧
    ((provisionAccounts (fun i => 100 + i) (fun k => k + 1000)).length = 3 ∧
     provisionAccounts (fun i => 100 + i) (fun k => k + 1000) =
       [{ role := NodeRole.validator, privateKey := 100, address := 1100 },
        { role := NodeRole.validator, privateKey := 101, address := 1101 },
        { role := NodeRole.batchPoster, privateKey := 102, address := 1102 }] ∧
     (1100 : Nat) ≠ 1101 ∧ (1100 : Nat) ≠ 1102 ∧ (1101 : Nat) ≠ 1102) :=
  ⟨fun i j _ _ h => by omega, fun k k' h => by omega, by
    have := c3_account_provisioning (fun i => 100 + i) (fun k => k + 1000)
      (fun i j _ _ h => by have h2 : 100 + i = 100 + j := h; omega)
      (fun k k' h => by have h2 : k + 1000 = k' + 1000 := h; omega)
    simpa using this⟩

/-- The funding loop, fully characterised on a failing run: when the
first `f` transfers succeed and transfer `f` fails, exactly the first
`f` transfers are confirmed, in list order, and the loop reports
failure; no later transfer is attempted. -/
theorem runTransfers_fail (ok : Nat → Bool) :
    ∀ (addrs : List Nat) (k f : Nat),
      (∀ j, j < f → ok (k + j) = true) → ok (k + f) = false → f < addrs.length →
      runTransfers ok k addrs =
        ((addrs.take f).map (fun a => Effect.transfer a TEST_TOKENS_AMOUNT), false) := by
  intro addrs
  induction addrs with
  | nil => intro k f _ _ hlen; simp at hlen
  | cons a rest ih =>
    intro k f hpre hf hlen
    cases f with
    | zero =>
      simp only [Nat.add_zero] at hf
      unfold runTransfers
      rw [hf]
      simp
    | succ f' =>
      have hk : ok k = true := by simpa using hpre 0 (Nat.succ_pos f')
      have hrest := ih (k + 1) f'
        (fun j hj => by
          have h1 : k + 1 + j = k + (j + 1) := by omega
          rw [h1]; exact hpre (j + 1) (by omega))
        (by rw [Nat.add_right_comm, Nat.add_assoc]; exact hf)
        (by simpa using Nat.lt_of_succ_lt_succ hlen)
      unfold runTransfers
      rw [hk]
      simp [hrest]

/-- C4: with the balance guard passed and the run confirmed, if the
transfers with index below `f` succeed and transfer `f` fails
(`f < 3`), `deployChain` confirms exactly the first `f` transfers, in
provisioning order (validator 1, validator 2, batch poster), keeps them
in the trace (no reversal), aborts with the transfer error, and never
attempts the remaining transfers, the deployment submission or the
artifact write. -/
theorem c4_sequential_funding_aborts_on_failure (w : World) (f : Nat)
    (hbal : ¬ w.balance < TOKEN_NEEDS_FOR_DEPLOY)
    (hconf : w.answers.confirm = true)
    (hpre : ∀ j, j < f → w.transferOk j = true)
    (hf : w.transferOk f = false)
    (hlt : f < 3) :
    deployChainNamed w =
      ((([w.addrOf (w.genKey 0), w.addrOf (w.genKey 1), w.addrOf (w.genKey 2)].take f).map
          (fun a => Effect.transfer a TEST_TOKENS_AMOUNT)), Except.error "transfer failed") := by
  have hrun := runTransfers_fail w.transferOk
    [w.addrOf (w.genKey 0), w.addrOf (w.genKey 1), w.addrOf (w.genKey 2)] 0 f
    (fun j hj => by simpa using hpre j hj) (by simpa using hf) (by simpa using hlt)
  unfold deployChainNamed
  rw [if_neg hbal, hconf]
  simp [hrun]

/-- Fixture: the success scenario except that the second transfer (and
any later one) fails. -/
def failWorld : World :=
  { successWorld with transferOk := fun j => decide (j < 1) }

/-- Witness for C4 at the fixture whose second transfer fails: only the
first transfer (to validator 1, address 1100) is confirmed and the run
aborts. -/
theorem c4_sequential_funding_aborts_on_failure_witness :
    (¬ failWorld.balance < TOKEN_NEEDS_FOR_DEPLOY) ∧
    failWorld.answers.confirm = true ∧
    (∀ j, j < 1 → failWorld.transferOk j = true) ∧
    failWorld.transferOk 1 = false ∧
    deployChainNamed failWorld =
      ((([failWorld.addrOf (failWorld.genKey 0), failWorld.addrOf (failWorld.genKey 1),
          failWorld.addrOf (failWorld.genKey 2)].take 1).map
          (fun a => Effect.transfer a TEST_TOKENS_AMOUNT)), Except.error "transfer failed") :=
  ⟨by decide, rfl, by decide, by decide,
    c4_sequential_funding_aborts_on_failure failWorld 1 (by decide) rfl (by decide)
      (by decide) (by decide)⟩

/-- The calldata-decoding pass of the config deriver
(`prepareNodeConfig.ts` lines 24-35): decode the re-fetched
transaction's calldata with the factory's input layout, then parse the
embedded chain-config string. -/
def decodeTxChainConfig (tx : RollupTx) : Except String ChainConfig :=
  match decodeInputsConfig tx.calldata with
  | Except.error e => Except.error e
  | Except.ok i => deserializeChainConfig i.chainConfigStr

/-- C5: for every rollup-creation transaction whose calldata embeds a
serialised chain configuration (as `createRollup` submits it), the
config deriver's calldata pass decodes exactly that configuration:
embed-then-decode round-trips, and since the serialisation is
injective the decoded document re-serialises to the identical bytes. -/
theorem c5_calldata_roundtrip (p : CreateRollupParams) (cfg : ChainConfig)
    (hembed : p.config.chainConfigStr = serializeChainConfig cfg) :
    decodeTxChainConfig (mkRollupTx p) = Except.ok cfg := by
  unfold decodeTxChainConfig mkRollupTx encodeConfigCalldata
  simp only [decodeInputsConfig, if_pos rfl]
  rw [hembed]
  cases cfg with
  | mk a b dac => cases dac <;> rfl

/-- Witness for C5 at the parameters the success fixture submits
(chainId 412346, owner 900). -/
theorem c5_calldata_roundtrip_witness :
    ({ config := createRollupPrepareDeploymentParamsConfig 412346 900
       batchPosters := [1102]
       validators := [1100, 1101] : CreateRollupParams }).config.chainConfigStr =
      serializeChainConfig (prepareChainConfig 412346 900) ∧
    decodeTxChainConfig (mkRollupTx
      { config := createRollupPrepareDeploymentParamsConfig 412346 900
        batchPosters := [1102]
        validators := [1100, 1101] }) = Except.ok (prepareChainConfig 412346 900) :=
  ⟨rfl, c5_calldata_roundtrip
    { config := createRollupPrepareDeploymentParamsConfig 412346 900
      batchPosters := [1102]
      validators := [1100, 1101] } (prepareChainConfig 412346 900) rfl⟩

/-- `find?` returns the head of the filtered list. -/
theorem find?_eq_head?_filter {α : Type} (p : α → Bool) (l : List α) :
    l.find? p = (l.filter p).head? := by
  induction l with
  | nil => rfl
  | cons a t ih =>
    cases h : p a with
    | true => rw [List.find?_cons_of_pos t h, List.filter_cons_of_pos h, List.head?_cons]
    | false =>
      rw [List.find?_cons_of_neg t (by simp [h]), List.filter_cons_of_neg (by simp [h]), ih]

/-- When at most one element satisfies `p`, `find? p` is invariant under
permutation of the list. -/
theorem find?_perm_of_countP_le_one {α : Type} (p : α → Bool) {l l' : List α}
    (hperm : l.Perm l') (hcnt : l.countP p ≤ 1) : l'.find? p = l.find? p := by
  rw [find?_eq_head?_filter, find?_eq_head?_filter]
  have hp : (l.filter p).Perm (l'.filter p) := hperm.filter p
  rw [l.countP_eq_length_filter p] at hcnt
  cases hfl : l.filter p with
  | nil =>
    rw [hfl] at hp
    rw [List.Perm.eq_nil hp.symm]
  | cons b t =>
    rw [hfl] at hp hcnt
    have ht : t = [] := by
      cases t with
      | nil => rfl
      | cons c u => simp at hcnt
    rw [ht] at hp
    rw [List.perm_singleton.mp hp.symm, ht]

/-- A valid rollup-creation receipt: each core-contract-deployed event
topic occurs in exactly one log. -/
def validCoreLogs (logs : List LogEv) : Prop :=
  ∀ t ∈ coreTopics, logs.countP (fun e => e.topic = t) = 1

instance (logs : List LogEv) : Decidable (validCoreLogs logs) := by
  unfold validCoreLogs; infer_instance

/-- C6: for every receipt whose logs are a permutation of a valid
receipt's logs, the core-contract extraction returns the same complete,
correctly-labeled role-to-address mapping: `getCoreContracts` is
invariant under log-order permutation. -/
theorem c6_core_contracts_permutation_invariant (logs logs' : List LogEv)
    (hvalid : validCoreLogs logs) (hperm : logs.Perm logs') :
    getCoreContracts logs' = getCoreContracts logs := by
  unfold getCoreContracts
  rw [find?_perm_of_countP_le_one (fun e => e.topic = ROLLUP_TOPIC) hperm
        (le_of_eq (hvalid ROLLUP_TOPIC (by simp [coreTopics]))),
      find?_perm_of_countP_le_one (fun e => e.topic = INBOX_TOPIC) hperm
        (le_of_eq (hvalid INBOX_TOPIC (by simp [coreTopics]))),
      find?_perm_of_countP_le_one (fun e => e.topic = SEQUENCER_INBOX_TOPIC) hperm
        (le_of_eq (hvalid SEQUENCER_INBOX_TOPIC (by simp [coreTopics]))),
      find?_perm_of_countP_le_one (fun e => e.topic = BRIDGE_TOPIC) hperm
        (le_of_eq (hvalid BRIDGE_TOPIC (by simp [coreTopics])))]

/-- Fixture: the valid receipt logs of the success scenario. -/
def fixtureLogs : List LogEv :=
  [⟨ROLLUP_TOPIC, 11⟩, ⟨INBOX_TOPIC, 12⟩, ⟨SEQUENCER_INBOX_TOPIC, 13⟩, ⟨BRIDGE_TOPIC, 14⟩]

/-- Witness for C6: the fixture receipt, permuted by reversal, yields
the same extracted core contracts. -/
theorem c6_core_contracts_permutation_invariant_witness :
    validCoreLogs fixtureLogs ∧ fixtureLogs.Perm fixtureLogs.reverse ∧
    getCoreContracts fixtureLogs.reverse = getCoreContracts fixtureLogs :=
  ⟨by decide, (fixtureLogs.reverse_perm).symm,
    c6_core_contracts_permutation_invariant fixtureLogs fixtureLogs.reverse
      (by decide) (fixtureLogs.reverse_perm).symm⟩

/-- C7: the config deriver returns a configuration exactly when the
transaction fetch, the receipt fetch, the calldata decode, the embedded
chain-config parse and the receipt-log decode all succeed, and the
returned value is then the full assembly of the decoded parts — on any
mismatch it fails with a decoding error and never returns a partially
filled configuration. -/
theorem c7_config_deriver_all_or_nothing (w : World) (h : Nat) (r : GenResult) :
    generateNodeConfiguration w h = Except.ok r ↔
      ∃ tx rcpt txConfig chainConfig coreContracts,
        w.getTransaction h = some tx ∧
        w.getTransactionReceipt h = some rcpt ∧
        decodeInputsConfig tx.calldata = Except.ok txConfig ∧
        deserializeChainConfig txConfig.chainConfigStr = Except.ok chainConfig ∧
        getCoreContracts rcpt.logs = Except.ok coreContracts ∧
        r = { nodeConfig := prepareNodeConfig (mkNodeConfigParameters w txConfig chainConfig coreContracts), chainConfig := chainConfig } := by
  constructor
  · intro hok
    unfold generateNodeConfiguration at hok
    split at hok
    · exact Except.noConfusion hok
    · split at hok
      · exact Except.noConfusion hok
      · split at hok
        · exact Except.noConfusion hok
        · split at hok
          · exact Except.noConfusion hok
          · split at hok
            · exact Except.noConfusion hok
            · cases hok
              rename_i xa tx htx xb rcpt hrc xc txConfig hdec xd cc hde xe co hco
              exact ⟨tx, rcpt, txConfig, cc, co, htx, hrc, hdec, hde, hco, rfl⟩
  · rintro ⟨tx, rcpt, txConfig, cc, co, h1, h2, h3, h4, h5, rfl⟩
    unfold generateNodeConfiguration
    simp only [h1, h2, h3, h4, h5]

/-- C8: in the end-to-end success scenario — chainId 412346, deployer
balance 0.005 ether (5·10^15 wei), baseStake 0.00001 ether (10^13 wei),
per-account funding 0.001 ether (10^15 wei), every collaborator
succeeding — the pipeline issues exactly 3 transfers of the per-account
amount to the 3 provisioned accounts, submits exactly one
rollup-deployment transaction, and returns a chain configuration with
chainId 412346. -/
theorem c8_end_to_end_success :
    BASE_STAKE = 10000000000000 ∧
    TEST_TOKENS_AMOUNT = 1000000000000000 ∧
    successWorld.balance = 5000000000000000 ∧
    successWorld.answers.chainId = 412346 ∧
    (deployChainNamed successWorld).1.filter Effect.isTransfer =
      [Effect.transfer 1100 TEST_TOKENS_AMOUNT, Effect.transfer 1101 TEST_TOKENS_AMOUNT,
       Effect.transfer 1102 TEST_TOKENS_AMOUNT] ∧
    (deployChainNamed successWorld).1.countP Effect.isTransfer = 3 ∧
    (deployChainNamed successWorld).1.countP Effect.isSubmit = 1 ∧
    (deployChainNamed successWorld).2 = Except.ok (some (prepareChainConfig 412346 900)) ∧
    (prepareChainConfig 412346 900).chainId = 412346 := by
  decide

/-- C9 (divergence witness): in the success run, exactly one
node-configuration artifact is written, but the batch-poster and
validator private keys it carries are the `process.env` values
(`envBatchPosterKey` = 500, `envValidatorKey` = 501), not the keys
provisioned and funded in the same run (`genKey 0..2` = 100, 101, 102):
`prepareNodeConfig.ts` lines 44-45 read the keys from the environment
and the provisioned keys never reach the configuration. -/
theorem c9_artifact_keys_from_env :
    (deployChainNamed successWorld).1.filter Effect.isWrite =
      [Effect.writeArtifact (mkNodeConfigParameters successWorld
        (createRollupPrepareDeploymentParamsConfig 412346 900)
        (prepareChainConfig 412346 900)
        { rollup := 11, inbox := 12, sequencerInbox := 13, bridge := 14 })] ∧
    (mkNodeConfigParameters successWorld
        (createRollupPrepareDeploymentParamsConfig 412346 900)
        (prepareChainConfig 412346 900)
        { rollup := 11, inbox := 12, sequencerInbox := 13, bridge := 14 }).batchPosterPrivateKey
      = successWorld.envBatchPosterKey ∧
    (mkNodeConfigParameters successWorld
        (createRollupPrepareDeploymentParamsConfig 412346 900)
        (prepareChainConfig 412346 900)
        { rollup := 11, inbox := 12, sequencerInbox := 13, bridge := 14 }).validatorPrivateKey
      = successWorld.envValidatorKey ∧
    successWorld.envBatchPosterKey ≠ successWorld.genKey 2 ∧
    successWorld.envValidatorKey ≠ successWorld.genKey 0 ∧
    successWorld.envValidatorKey ≠ successWorld.genKey 1 := by
  decide

/-- C10: the two coexisting `deployChain` implementations — the variant
with individually named key/address variables and the variant with a
role-mapped `NodeAccount` list — are behaviourally equivalent: in every
environment they produce the same effect trace (same transfers in the
same order, same deployment parameters) and the same outcome. -/
theorem c10_named_and_role_variants_equivalent (w : World) :
    deployChainRoles w = deployChainNamed w := by
  rfl

end Playbook
